import Mathlib

/-!
Shallow embedding of `Modelling_Virus_Population_Growth.py`.

Randomness model: every call to `random.random()` in the source receives its
own draw, a rational number (the source draws uniformly from `[0,1)`; here the
draw is an explicit argument, and theorems quantify over all draws, adding the
range hypotheses `0 ≤ d` and `d < 1` where a claim needs them).  A loop that
makes one stochastic call per element receives a family of draws indexed by
position (`ℕ → ℚ`), so that each call site owns an independent draw, exactly
as independent calls to the global generator do.

Python dictionaries (`resistances`) are embedded as association lists
`List (String × Bool)` in insertion order; `dict.get` is `dictGet` (returning
`none` for a missing key, as `get` returns `None`), and `dict.items()`
iteration is recursion over the list.  The class hierarchy is flattened:
`ResistantVirus` repeats the two `SimpleVirus` fields, and `TreatedPatient`
repeats the two `Patient` fields plus `presDrugs`.  `raise NoChildException`
becomes an `Option` result (`none` = no offspring).
-/

/-- Shift an indexed family of draws: `shift g k` is the family starting at
index `k`. -/
def shift (g : ℕ → ℚ) (k : ℕ) : ℕ → ℚ := fun i => g (i + k)

/-- Embedding of class `SimpleVirus` (attributes set in `__init__`). -/
structure SimpleVirus where
  maxBirthProb : ℚ
  clearProb : ℚ
deriving DecidableEq

/-- Source `SimpleVirus.doesClear`:
`if self.getClearProb() >= random.random(): return True else: return False`. -/
def SimpleVirus.doesClear (v : SimpleVirus) (draw : ℚ) : Bool :=
  if v.clearProb ≥ draw then true else false

/-- Source `SimpleVirus.reproduce`:
`if self.maxBirthProb * (1-popDensity) >= random.random(): return SimpleVirus(...)
else: raise NoChildException`. -/
def SimpleVirus.reproduce (v : SimpleVirus) (popDensity draw : ℚ) :
    Option SimpleVirus :=
  if v.maxBirthProb * (1 - popDensity) ≥ draw then
    some ⟨v.maxBirthProb, v.clearProb⟩
  else
    none

/-- Embedding of class `ResistantVirus` (the `SimpleVirus` fields are
flattened in; the attribute is named `resistance` as in the source). -/
structure ResistantVirus where
  maxBirthProb : ℚ
  clearProb : ℚ
  resistance : List (String × Bool)
  mutProb : ℚ
deriving DecidableEq

/-- Python `dict.get(drug)` on the resistance map: the value at the first
matching key, `none` when the key is absent (Python `None`). -/
def dictGet (res : List (String × Bool)) (drug : String) : Option Bool :=
  (res.find? fun p => p.1 == drug).map fun p => p.2

/-- Source `ResistantVirus.isResistantTo`: `return self.getResistances().get(drug)`. -/
def ResistantVirus.isResistantTo (v : ResistantVirus) (drug : String) :
    Option Bool :=
  dictGet v.resistance drug

/-- Source gate loop in `ResistantVirus.reproduce`:
`resistant = True; for drug in activeDrugs: if self.getResistances().get(drug) == False:
resistant = False; break`.  In Python `None == False` is `False`, so only an
entry explicitly mapped to `False` clears the flag. -/
def resistantToAll (v : ResistantVirus) : List String → Bool
  | [] => true
  | drug :: rest =>
    if dictGet v.resistance drug == some false then false
    else resistantToAll v rest

/-- Source offspring-resistance loop in `ResistantVirus.reproduce`:
`for drug in self.resistance.items(): if drug[1] == True: if (1-self.mutProb) >
random.random(): new True else False; else: if self.mutProb > random.random():
new True else False`.  The draw for the entry at position `i` is `td i`. -/
def mutateTraits (mutProb : ℚ) : List (String × Bool) → (ℕ → ℚ) → List (String × Bool)
  | [], _ => []
  | (d, b) :: rest, td =>
    (d, if b then (if 1 - mutProb > td 0 then true else false)
        else (if mutProb > td 0 then true else false))
      :: mutateTraits mutProb rest (shift td 1)

/-- Source `ResistantVirus.reproduce`: gate on `resistantToAll`, then the birth
test `self.maxBirthProb * (1-popDensity) >= random.random()`, then build the
offspring with the mutated resistance map.  `birthDraw` is the birth-test draw,
`traitDraws` the per-entry draws of the offspring-resistance loop. -/
def ResistantVirus.reproduce (v : ResistantVirus) (popDensity : ℚ)
    (activeDrugs : List String) (birthDraw : ℚ) (traitDraws : ℕ → ℚ) :
    Option ResistantVirus :=
  if resistantToAll v activeDrugs = true ∧
      v.maxBirthProb * (1 - popDensity) ≥ birthDraw then
    some ⟨v.maxBirthProb, v.clearProb,
      mutateTraits v.mutProb v.resistance traitDraws, v.mutProb⟩
  else
    none

/-- Source `ResistantVirus.doesClear` (inherited unchanged from `SimpleVirus`). -/
def ResistantVirus.doesClear (v : ResistantVirus) (draw : ℚ) : Bool :=
  if v.clearProb ≥ draw then true else false

/-- Embedding of class `Patient` (attributes of `__init__`). -/
structure Patient where
  viruses : List SimpleVirus
  maxPop : ℕ
deriving DecidableEq

/-- Survival loop of `Patient.update`:
`surviving_virus = []; for virus in self.getViruses(): if virus.doesClear() == False:
surviving_virus.append(virus)`.  The virus at position `i` draws `cd i`. -/
def survivalLoop : List SimpleVirus → (ℕ → ℚ) → List SimpleVirus
  | [], _ => []
  | v :: vs, cd =>
    if v.doesClear (cd 0) then survivalLoop vs (shift cd 1)
    else v :: survivalLoop vs (shift cd 1)

/-- Reproduction loop of `Patient.update`:
`new_virus = []; for virus in surviving_virus: try: new_virus.append(virus.reproduce(popDensity))
except NoChildException: pass`.  The survivor at position `i` draws `bd i`. -/
def reproductionLoop (popDensity : ℚ) : List SimpleVirus → (ℕ → ℚ) → List SimpleVirus
  | [], _ => []
  | v :: vs, bd =>
    match v.reproduce popDensity (bd 0) with
    | some child => child :: reproductionLoop popDensity vs (shift bd 1)
    | none => reproductionLoop popDensity vs (shift bd 1)

/-- Source `Patient.update`: survival loop, one density computation
`len(surviving_virus)/float(self.getMaxPop())`, reproduction loop over the
survivors, then `self.viruses = new_virus + surviving_virus` and
`return len(self.viruses)`.  Returns the updated patient and the returned
population count. -/
def Patient.update (p : Patient) (cd bd : ℕ → ℚ) : Patient × ℕ :=
  let survivors := survivalLoop p.viruses cd
  let popDensity := (survivors.length : ℚ) / (p.maxPop : ℚ)
  let newVirus := reproductionLoop popDensity survivors bd
  ({ p with viruses := newVirus ++ survivors }, (newVirus ++ survivors).length)

/-- Embedding of class `TreatedPatient` (the `Patient` fields flattened in;
`presDrugs` starts empty in `__init__` and is only changed by
`addPrescription`). -/
structure TreatedPatient where
  viruses : List ResistantVirus
  maxPop : ℕ
  presDrugs : List String
deriving DecidableEq

/-- Source `TreatedPatient.addPrescription`:
`if newDrug not in self.presDrugs: self.presDrugs.append(newDrug)`. -/
def TreatedPatient.addPrescription (t : TreatedPatient) (newDrug : String) :
    TreatedPatient :=
  if newDrug ∈ t.presDrugs then t
  else { t with presDrugs := t.presDrugs ++ [newDrug] }

/-- Survival loop of `TreatedPatient.update` (same text as in `Patient.update`,
over `ResistantVirus`). -/
def treatedSurvivalLoop : List ResistantVirus → (ℕ → ℚ) → List ResistantVirus
  | [], _ => []
  | v :: vs, cd =>
    if v.doesClear (cd 0) then treatedSurvivalLoop vs (shift cd 1)
    else v :: treatedSurvivalLoop vs (shift cd 1)

/-- Reproduction loop of `TreatedPatient.update`:
`for virus in surviving_virus: try: new_virus.append(virus.reproduce(popDensity,
self.getPrescriptions())) except NoChildException: pass`.  The survivor at
position `i` draws `bd i` for the birth test and the family `td i` for its
offspring-resistance loop. -/
def treatedReproductionLoop (popDensity : ℚ) (activeDrugs : List String) :
    List ResistantVirus → (ℕ → ℚ) → (ℕ → ℕ → ℚ) → List ResistantVirus
  | [], _, _ => []
  | v :: vs, bd, td =>
    match v.reproduce popDensity activeDrugs (bd 0) (td 0) with
    | some child =>
      child :: treatedReproductionLoop popDensity activeDrugs vs (shift bd 1)
        (fun i => td (i + 1))
    | none =>
      treatedReproductionLoop popDensity activeDrugs vs (shift bd 1)
        (fun i => td (i + 1))

/-- Source `TreatedPatient.update`: identical to `Patient.update` except the
reproduction calls pass `self.getPrescriptions()`. -/
def TreatedPatient.update (t : TreatedPatient) (cd bd : ℕ → ℚ) (td : ℕ → ℕ → ℚ) :
    TreatedPatient × ℕ :=
  let survivors := treatedSurvivalLoop t.viruses cd
  let popDensity := (survivors.length : ℚ) / (t.maxPop : ℚ)
  let newVirus := treatedReproductionLoop popDensity t.presDrugs survivors bd td
  ({ t with viruses := newVirus ++ survivors }, (newVirus ++ survivors).length)

/-! Spec-side definitions, written from the words of the design document and
used only to state the refinement claim about `update`: a survival filter
retaining the particles whose `clears()` is false, a single density snapshot,
one reproduce attempt per survivor, final population = survivors plus
offspring (order irrelevant, so a multiset). -/

/-- The list of the first `n` draws of a family. -/
def drawsFor (g : ℕ → ℚ) (n : ℕ) : List ℚ := (List.range n).map g

/-- The list of the first `n` members of a family of draw families. -/
def streamsFor (td : ℕ → ℕ → ℚ) (n : ℕ) : List (ℕ → ℚ) := (List.range n).map td

/-- Spec survival phase: retain exactly the particles for which `clears()` is
false, each evaluated on its own draw. -/
def specSurvivors (vs : List SimpleVirus) (cd : ℕ → ℚ) : List SimpleVirus :=
  ((vs.zip (drawsFor cd vs.length)).filter fun p => !p.1.doesClear p.2).map
    fun p => p.1

/-- Spec reproduction phase: one `reproduce` attempt per survivor at the single
density `dens`, collecting the successful offspring. -/
def specOffspring (dens : ℚ) (survivors : List SimpleVirus) (bd : ℕ → ℚ) :
    List SimpleVirus :=
  (survivors.zip (drawsFor bd survivors.length)).filterMap fun p =>
    p.1.reproduce dens p.2

/-- Spec update, following the three ordered phases of the design document;
the final population is the multiset union of survivors and offspring, and the
returned count is its size. -/
def specUpdate (vs : List SimpleVirus) (maxPop : ℕ) (cd bd : ℕ → ℚ) :
    Multiset SimpleVirus × ℕ :=
  let survivors := specSurvivors vs cd
  let dens := (survivors.length : ℚ) / (maxPop : ℚ)
  let offspring := specOffspring dens survivors bd
  ((survivors : Multiset SimpleVirus) + (offspring : Multiset SimpleVirus),
    survivors.length + offspring.length)

/-- Spec survival phase for drug-aware particles. -/
def specTreatedSurvivors (vs : List ResistantVirus) (cd : ℕ → ℚ) :
    List ResistantVirus :=
  ((vs.zip (drawsFor cd vs.length)).filter fun p => !p.1.doesClear p.2).map
    fun p => p.1

/-- Spec reproduction phase for drug-aware particles: one gated `reproduce`
attempt per survivor at the single density `dens`. -/
def specTreatedOffspring (dens : ℚ) (activeDrugs : List String)
    (survivors : List ResistantVirus) (bd : ℕ → ℚ) (td : ℕ → ℕ → ℚ) :
    List ResistantVirus :=
  ((survivors.zip (drawsFor bd survivors.length)).zip
      (streamsFor td survivors.length)).filterMap fun p =>
    p.1.1.reproduce dens activeDrugs p.1.2 p.2

/-- Spec update for the treated host: same phases, reproduction gated on the
active drugs. -/
def specTreatedUpdate (vs : List ResistantVirus) (maxPop : ℕ)
    (activeDrugs : List String) (cd bd : ℕ → ℚ) (td : ℕ → ℕ → ℚ) :
    Multiset ResistantVirus × ℕ :=
  let survivors := specTreatedSurvivors vs cd
  let dens := (survivors.length : ℚ) / (maxPop : ℚ)
  let offspring := specTreatedOffspring dens activeDrugs survivors bd td
  ((survivors : Multiset ResistantVirus) + (offspring : Multiset ResistantVirus),
    survivors.length + offspring.length)

/-! Helper lemmas. -/

theorem drawsFor_succ (g : ℕ → ℚ) (n : ℕ) :
    drawsFor g (n + 1) = g 0 :: drawsFor (shift g 1) n := by
  simp [drawsFor, List.range_succ_eq_map, List.map_map, shift, Function.comp,
    Nat.succ_eq_add_one]

theorem streamsFor_succ (td : ℕ → ℕ → ℚ) (n : ℕ) :
    streamsFor td (n + 1) = td 0 :: streamsFor (fun i => td (i + 1)) n := by
  simp [streamsFor, List.range_succ_eq_map, List.map_map, Function.comp,
    Nat.succ_eq_add_one]

theorem survivalLoop_eq_spec (vs : List SimpleVirus) (cd : ℕ → ℚ) :
    survivalLoop vs cd = specSurvivors vs cd := by
  induction vs generalizing cd with
  | nil => rfl
  | cons v vs ih =>
    by_cases h : v.doesClear (cd 0) <;>
      simp [survivalLoop, specSurvivors, drawsFor_succ, h, ih, List.filter_cons]

theorem reproductionLoop_eq_spec (dens : ℚ) (vs : List SimpleVirus) (bd : ℕ → ℚ) :
    reproductionLoop dens vs bd = specOffspring dens vs bd := by
  induction vs generalizing bd with
  | nil => rfl
  | cons v vs ih =>
    cases h : v.reproduce dens (bd 0) <;>
      simp [reproductionLoop, specOffspring, drawsFor_succ, h, ih,
        List.filterMap_cons]

theorem treatedSurvivalLoop_eq_spec (vs : List ResistantVirus) (cd : ℕ → ℚ) :
    treatedSurvivalLoop vs cd = specTreatedSurvivors vs cd := by
  induction vs generalizing cd with
  | nil => rfl
  | cons v vs ih =>
    by_cases h : v.doesClear (cd 0) <;>
      simp [treatedSurvivalLoop, specTreatedSurvivors, drawsFor_succ, h, ih,
        List.filter_cons]

theorem treatedReproductionLoop_eq_spec (dens : ℚ) (ad : List String)
    (vs : List ResistantVirus) (bd : ℕ → ℚ) (td : ℕ → ℕ → ℚ) :
    treatedReproductionLoop dens ad vs bd td
      = specTreatedOffspring dens ad vs bd td := by
  induction vs generalizing bd td with
  | nil => rfl
  | cons v vs ih =>
    cases h : v.reproduce dens ad (bd 0) (td 0) <;>
      simp [treatedReproductionLoop, specTreatedOffspring, drawsFor_succ,
        streamsFor_succ, h, ih, List.filterMap_cons]

theorem reproductionLoop_length_le (dens : ℚ) (vs : List SimpleVirus)
    (bd : ℕ → ℚ) : (reproductionLoop dens vs bd).length ≤ vs.length := by
  induction vs generalizing bd with
  | nil => simp [reproductionLoop]
  | cons v vs ih =>
    have h1 := ih (shift bd 1)
    cases h : v.reproduce dens (bd 0) <;> simp [reproductionLoop, h] <;> omega

theorem treatedReproductionLoop_length_le (dens : ℚ) (ad : List String)
    (vs : List ResistantVirus) (bd : ℕ → ℚ) (td : ℕ → ℕ → ℚ) :
    (treatedReproductionLoop dens ad vs bd td).length ≤ vs.length := by
  induction vs generalizing bd td with
  | nil => simp [treatedReproductionLoop]
  | cons v vs ih =>
    have h1 := ih (shift bd 1) (fun i => td (i + 1))
    cases h : v.reproduce dens ad (bd 0) (td 0) <;>
      simp [treatedReproductionLoop, h] <;> omega

theorem resistantToAll_iff (v : ResistantVirus) (ad : List String) :
    resistantToAll v ad = true ↔ ∀ d ∈ ad, dictGet v.resistance d ≠ some false := by
  induction ad with
  | nil => simp [resistantToAll]
  | cons a rest ih =>
    by_cases h : dictGet v.resistance a = some false <;>
      simp [resistantToAll, h, ih]

theorem mutateTraits_mutProb_one (res : List (String × Bool)) (td : ℕ → ℚ)
    (hd : ∀ i, 0 ≤ td i ∧ td i < 1) :
    mutateTraits 1 res td = res.map fun p => (p.1, !p.2) := by
  induction res generalizing td with
  | nil => rfl
  | cons p rest ih =>
    obtain ⟨d, b⟩ := p
    have h0 := hd 0
    have hb : ¬ ((1 : ℚ) - 1 > td 0) := by
      intro hgt
      simp at hgt
      exact absurd h0.1 (not_le.mpr hgt)
    cases b <;>
      simp [mutateTraits, hb, h0.2, not_lt.mpr h0.1,
        ih (shift td 1) (fun i => hd (i + 1)), shift]

/-! Claim theorems. -/

/-- C4 counterexample: the claim says that with `clearProb = 0` the particle
never clears for any draw in `[0,1)`, under the strict convention
`draw < clearProb`.  The source compares `clearProb >= draw`, so at the draw
`0` (which lies in `[0,1)`) a particle with `clearProb = 0` clears. -/
theorem C4_counterexample :
    ¬ ((∀ v : SimpleVirus, v.clearProb = 0 → ∀ d : ℚ, 0 ≤ d → d < 1 →
        v.doesClear d = false)
      ∧ (∀ v : SimpleVirus, v.clearProb = 1 → ∀ d : ℚ, 0 ≤ d → d < 1 →
        v.doesClear d = true)) := by
  intro h
  have h0 := h.1 ⟨1, 0⟩ rfl 0 le_rfl (by norm_num)
  simp [SimpleVirus.doesClear] at h0

/-- C4 (amended): `doesClear` is true exactly when the draw is at most
`clearProb` (the source convention is `clearProb >= draw`, not strict `<`);
hence with `clearProb = 0` it is false for every draw in `(0,1)`, and with
`clearProb = 1` it is true for every draw in `[0,1)`. -/
theorem C4_theorem (v : SimpleVirus) (d : ℚ) :
    (v.doesClear d = true ↔ d ≤ v.clearProb)
      ∧ (v.clearProb = 0 → 0 < d → v.doesClear d = false)
      ∧ (v.clearProb = 1 → 0 ≤ d → d < 1 → v.doesClear d = true) := by
  refine ⟨?_, ?_, ?_⟩
  · simp [SimpleVirus.doesClear, ge_iff_le]
  · intro h0 hd
    simp [SimpleVirus.doesClear, h0, ge_iff_le, not_le.mpr hd]
  · intro h1 hd0 hd1
    simp [SimpleVirus.doesClear, h1, ge_iff_le]
    linarith

/-- C4 witness: a particle with `clearProb = 0` does not clear on the draw
`1/2`, and a particle with `clearProb = 1` clears on the draw `1/2`. -/
theorem C4_witness :
    (SimpleVirus.mk 1 0).doesClear (1/2) = false
      ∧ (SimpleVirus.mk 1 1).doesClear (1/2) = true :=
  ⟨(C4_theorem ⟨1, 0⟩ (1/2)).2.1 rfl (by norm_num),
   (C4_theorem ⟨1, 1⟩ (1/2)).2.2 rfl (by norm_num) (by norm_num)⟩

/-- C5 counterexample: the claim says that with `maxBirthProb = 0` the
reproduce call never returns an offspring for any draw in `[0,1)`.  The source
compares `maxBirthProb * (1-popDensity) >= draw`, and at the draw `0` the
comparison `0 >= 0` holds, so an offspring is returned. -/
theorem C5_counterexample :
    ¬ (∀ v : SimpleVirus, v.maxBirthProb = 0 → ∀ dens d : ℚ, 0 ≤ d → d < 1 →
      v.reproduce dens d = none) := by
  intro h
  have h0 := h ⟨0, 1⟩ rfl 0 0 le_rfl (by norm_num)
  simp [SimpleVirus.reproduce] at h0

/-- C5 (amended): with `maxBirthProb = 0`, `reproduce` signals no offspring
for every population density and every draw in `(0,1)` (every strictly
positive draw). -/
theorem C5_theorem (v : SimpleVirus) (dens d : ℚ) (h0 : v.maxBirthProb = 0)
    (hd : 0 < d) : v.reproduce dens d = none := by
  have hlt : ¬ (v.maxBirthProb * (1 - dens) ≥ d) := by
    rw [h0, zero_mul]
    simpa using hd
  simp [SimpleVirus.reproduce, hlt]

/-- C5 witness: a particle with `maxBirthProb = 0` does not reproduce at
density `1/2` on the draw `1/3`. -/
theorem C5_witness : (SimpleVirus.mk 0 1).reproduce (1/2) (1/3) = none :=
  C5_theorem ⟨0, 1⟩ (1/2) (1/3) rfl (by norm_num)

/-- C6 counterexample: the claim says that at density at least `1` no Basic
particle reproduces for any draw in `[0,1)`.  At density exactly `1` the
effective probability is `0`, and the source comparison `0 >= draw` holds at
the draw `0`, so the particle reproduces. -/
theorem C6_counterexample :
    ¬ (∀ (v : SimpleVirus) (dens : ℚ), 1 ≤ dens → ∀ d : ℚ, 0 ≤ d → d < 1 →
      v.reproduce dens d = none) := by
  intro h
  have h0 := h ⟨1, 0⟩ 1 le_rfl 0 le_rfl (by norm_num)
  simp [SimpleVirus.reproduce] at h0

/-- C6 (amended): for a Basic particle with nonnegative `maxBirthProb` (the
data-model invariant) and density at least `1`, `reproduce` signals no
offspring for every draw in `(0,1)` (every strictly positive draw): the
effective probability `maxBirthProb * (1 - populationDensity)` is at most
`0`, below the draw. -/
theorem C6_theorem (v : SimpleVirus) (dens d : ℚ) (hb : 0 ≤ v.maxBirthProb)
    (hdens : 1 ≤ dens) (hd : 0 < d) : v.reproduce dens d = none := by
  have h1 : 0 ≤ v.maxBirthProb * (dens - 1) := mul_nonneg hb (by linarith)
  have hlt : ¬ (v.maxBirthProb * (1 - dens) ≥ d) := by
    intro hge
    nlinarith
  simp [SimpleVirus.reproduce, hlt]

/-- C6 witness: a particle with `maxBirthProb = 1` does not reproduce at
density `1` on the draw `1/2`. -/
theorem C6_witness : (SimpleVirus.mk 1 0).reproduce 1 (1/2) = none :=
  C6_theorem ⟨1, 0⟩ 1 (1/2) (by norm_num) le_rfl (by norm_num)

/-- C1 counterexample: the claim says that with `mutationProb = 1` every
offspring is resistant to every drug key regardless of the parent state.  In
the source, a trait the parent holds as `True` is kept only when
`(1 - mutProb) > draw`, which with `mutProb = 1` never holds, so a resistant
parent always yields a non-resistant offspring trait: at the concrete parent
resistant to the drug `g`, the successful reproduce call returns an offspring
whose state for `g` is `False`. -/
theorem C1_counterexample :
    ¬ (∀ (v : ResistantVirus) (pd : ℚ) (ad : List String) (bd : ℚ)
        (td : ℕ → ℚ) (c : ResistantVirus), v.mutProb = 1 → 0 ≤ bd → bd < 1 →
        (∀ i, 0 ≤ td i ∧ td i < 1) → v.reproduce pd ad bd td = some c →
        ∀ p ∈ c.resistance, p.2 = true) := by
  intro h
  have hrep : (ResistantVirus.mk 1 0 [("g", true)] 1).reproduce 0 [] 0
      (fun _ => 0) = some (ResistantVirus.mk 1 0 [("g", false)] 1) := by
    rw [ResistantVirus.reproduce, if_pos ⟨rfl, by norm_num⟩]
    simp [mutateTraits]
  have h2 := h ⟨1, 0, [("g", true)], 1⟩ 0 [] 0 (fun _ => 0)
    ⟨1, 0, [("g", false)], 1⟩ rfl le_rfl (by norm_num)
    (fun i => ⟨le_rfl, by norm_num⟩) hrep ("g", false) (by simp)
  simp at h2

/-- C1 (amended): with `mutationProb = 1` and all trait draws in `[0,1)`, a
successful reproduce call yields an offspring whose resistance state for each
drug key of the parent map is the logical NEGATION of the parent state (the
source mutation model toggles each trait with probability `mutProb`, so at
`mutProb = 1` every trait flips). -/
theorem C1_theorem (v : ResistantVirus) (pd : ℚ) (ad : List String) (bd : ℚ)
    (td : ℕ → ℚ) (c : ResistantVirus) (hm : v.mutProb = 1)
    (htd : ∀ i, 0 ≤ td i ∧ td i < 1)
    (hrep : v.reproduce pd ad bd td = some c) :
    c.resistance = v.resistance.map fun p => (p.1, !p.2) := by
  rw [ResistantVirus.reproduce] at hrep
  by_cases hc : resistantToAll v ad = true ∧
      v.maxBirthProb * (1 - pd) ≥ bd
  · rw [if_pos hc] at hrep
    have hcres : c = ⟨v.maxBirthProb, v.clearProb,
        mutateTraits v.mutProb v.resistance td, v.mutProb⟩ :=
      (Option.some.inj hrep).symm
    subst hcres
    show mutateTraits v.mutProb v.resistance td = _
    rw [hm]
    exact mutateTraits_mutProb_one v.resistance td htd
  · rw [if_neg hc] at hrep
    exact absurd hrep (by simp)

/-- C1 witness: a parent resistant to `g` and not to `s`, with
`mutationProb = 1`, whose reproduce call succeeds, yields an offspring whose
resistance map is the entrywise negation of the parent map. -/
theorem C1_witness :
    (ResistantVirus.mk 1 0 [("g", false), ("s", true)] 1).resistance
      = (ResistantVirus.mk 1 0 [("g", true), ("s", false)] 1).resistance.map
          fun p => (p.1, !p.2) :=
  C1_theorem ⟨1, 0, [("g", true), ("s", false)], 1⟩ 0 [] 0 (fun _ => 0)
    ⟨1, 0, [("g", false), ("s", true)], 1⟩ rfl
    (fun i => ⟨le_rfl, by norm_num⟩)
    (by
      rw [ResistantVirus.reproduce, if_pos ⟨rfl, by norm_num⟩]
      simp [mutateTraits, shift])

/-- C2: a DrugAware particle with an explicit `False` resistance entry for
some drug in the active set never reproduces — for every population density,
every birth draw and every family of trait draws the gated reproduce returns
no offspring; and with an empty active set the gate passes vacuously. -/
theorem C2_theorem :
    (∀ (v : ResistantVirus) (pd : ℚ) (ad : List String) (bd : ℚ)
      (td : ℕ → ℚ) (d : String), d ∈ ad → v.isResistantTo d = some false →
      v.reproduce pd ad bd td = none)
    ∧ (∀ v : ResistantVirus, resistantToAll v [] = true) := by
  constructor
  · intro v pd ad bd td d hmem hres
    have hgate : ¬ (resistantToAll v ad = true) := by
      rw [resistantToAll_iff]
      intro hall
      exact hall d hmem hres
    simp [ResistantVirus.reproduce, hgate]
  · intro v
    rfl

/-- C2 witness: a particle with `maxBirthProb = 1` and an explicit `False`
entry for the active drug `X` returns no offspring even on the draw `0`. -/
theorem C2_witness :
    (ResistantVirus.mk 1 0 [("X", false)] 0).reproduce 0 ["X"] 0
      (fun _ => 0) = none :=
  C2_theorem.1 ⟨1, 0, [("X", false)], 0⟩ 0 ["X"] 0 (fun _ => 0) "X"
    (by simp) rfl

/-- C9: for a drug absent from the resistance map, `isResistantTo` returns no
boolean (`none`, the embedding of Python `None`); the reproduction gate passes
exactly when no active drug has an explicit `False` entry, so an absent key
does not block; and whenever the gate passes and the birth comparison holds,
the gated reproduce does return an offspring. -/
theorem C9_theorem :
    (∀ (v : ResistantVirus) (d : String), (∀ p ∈ v.resistance, p.1 ≠ d) →
      v.isResistantTo d = none)
    ∧ (∀ (v : ResistantVirus) (ad : List String),
      resistantToAll v ad = true ↔ ∀ d ∈ ad, v.isResistantTo d ≠ some false)
    ∧ (∀ (v : ResistantVirus) (pd : ℚ) (ad : List String) (bd : ℚ)
      (td : ℕ → ℚ), resistantToAll v ad = true →
      v.maxBirthProb * (1 - pd) ≥ bd →
      (v.reproduce pd ad bd td).isSome = true) := by
  refine ⟨?_, ?_, ?_⟩
  · intro v d hk
    have hfind : v.resistance.find? (fun p => p.1 == d) = none := by
      rw [List.find?_eq_none]
      intro p hp
      simpa using hk p hp
    simp [ResistantVirus.isResistantTo, dictGet, hfind]
  · intro v ad
    simpa [ResistantVirus.isResistantTo] using resistantToAll_iff v ad
  · intro v pd ad bd td hg hb
    simp [ResistantVirus.reproduce, hg, hb]

/-- C9 witness: a particle whose map holds only the drug `Y`, queried for the
absent drug `X`, yields no boolean; and with `X` the only active drug the
particle still reproduces on the draw `0`. -/
theorem C9_witness :
    (ResistantVirus.mk 1 0 [("Y", true)] 0).isResistantTo "X" = none
      ∧ ((ResistantVirus.mk 1 0 [("Y", true)] 0).reproduce 0 ["X"] 0
          (fun _ => 0)).isSome = true :=
  ⟨C9_theorem.1 ⟨1, 0, [("Y", true)], 0⟩ "X" (by simp),
   C9_theorem.2.2 ⟨1, 0, [("Y", true)], 0⟩ 0 ["X"] 0 (fun _ => 0)
     (by decide) (by norm_num)⟩

/-- C3: one update step of either host refines the three-phase design exactly:
the survival filter retains the particles whose `clears()` is false, a single
density `|survivors| / maxPopulation` is computed and used for every
reproduce attempt, one reproduce attempt is made per survivor only, the
resulting population is (as a multiset, order irrelevant) the survivors plus
the successful offspring, and the returned integer is its size. -/
theorem C3_theorem :
    (∀ (p : Patient) (cd bd : ℕ → ℚ),
      ((p.update cd bd).1.viruses : Multiset SimpleVirus)
          = (specUpdate p.viruses p.maxPop cd bd).1
        ∧ (p.update cd bd).2 = (specUpdate p.viruses p.maxPop cd bd).2
        ∧ (p.update cd bd).2 = (p.update cd bd).1.viruses.length)
    ∧ (∀ (t : TreatedPatient) (cd bd : ℕ → ℚ) (td : ℕ → ℕ → ℚ),
      ((t.update cd bd td).1.viruses : Multiset ResistantVirus)
          = (specTreatedUpdate t.viruses t.maxPop t.presDrugs cd bd td).1
        ∧ (t.update cd bd td).2
          = (specTreatedUpdate t.viruses t.maxPop t.presDrugs cd bd td).2
        ∧ (t.update cd bd td).2 = (t.update cd bd td).1.viruses.length) := by
  constructor
  · intro p cd bd
    refine ⟨?_, ?_, rfl⟩
    · simp only [Patient.update, specUpdate, survivalLoop_eq_spec,
        reproductionLoop_eq_spec, Multiset.coe_add]
      exact Multiset.coe_eq_coe.mpr List.perm_append_comm
    · simp only [Patient.update, specUpdate, survivalLoop_eq_spec,
        reproductionLoop_eq_spec, List.length_append]
      exact Nat.add_comm _ _
  · intro t cd bd td
    refine ⟨?_, ?_, rfl⟩
    · simp only [TreatedPatient.update, specTreatedUpdate,
        treatedSurvivalLoop_eq_spec, treatedReproductionLoop_eq_spec,
        Multiset.coe_add]
      exact Multiset.coe_eq_coe.mpr List.perm_append_comm
    · simp only [TreatedPatient.update, specTreatedUpdate,
        treatedSurvivalLoop_eq_spec, treatedReproductionLoop_eq_spec,
        List.length_append]
      exact Nat.add_comm _ _

/-- C7: for either host and every family of draws, the population count
returned by one update step is at most twice the number of survivors of that
step, since each survivor contributes at most one offspring. -/
theorem C7_theorem :
    (∀ (p : Patient) (cd bd : ℕ → ℚ),
      (p.update cd bd).2 ≤ 2 * (survivalLoop p.viruses cd).length)
    ∧ (∀ (t : TreatedPatient) (cd bd : ℕ → ℚ) (td : ℕ → ℕ → ℚ),
      (t.update cd bd td).2 ≤ 2 * (treatedSurvivalLoop t.viruses cd).length) := by
  constructor
  · intro p cd bd
    have h := reproductionLoop_length_le
      (((survivalLoop p.viruses cd).length : ℚ) / (p.maxPop : ℚ))
      (survivalLoop p.viruses cd) bd
    simp only [Patient.update, List.length_append]
    omega
  · intro t cd bd td
    have h := treatedReproductionLoop_length_le
      (((treatedSurvivalLoop t.viruses cd).length : ℚ) / (t.maxPop : ℚ))
      t.presDrugs (treatedSurvivalLoop t.viruses cd) bd td
    simp only [TreatedPatient.update, List.length_append]
    omega

/-- C8: a failed reproduce attempt contributes no offspring and the loop
simply continues with the remaining survivors (first two parts, for both
particle variants); and for either host every survivor of the step is
retained in the final population — the survivor list is a suffix of the new
virus list (last two parts).  The update functions are total, so the step
always completes. -/
theorem C8_theorem :
    (∀ (dens : ℚ) (v : SimpleVirus) (vs : List SimpleVirus) (bd : ℕ → ℚ),
      v.reproduce dens (bd 0) = none →
      reproductionLoop dens (v :: vs) bd = reproductionLoop dens vs (shift bd 1))
    ∧ (∀ (dens : ℚ) (ad : List String) (v : ResistantVirus)
        (vs : List ResistantVirus) (bd : ℕ → ℚ) (td : ℕ → ℕ → ℚ),
      v.reproduce dens ad (bd 0) (td 0) = none →
      treatedReproductionLoop dens ad (v :: vs) bd td
        = treatedReproductionLoop dens ad vs (shift bd 1) (fun i => td (i + 1)))
    ∧ (∀ (p : Patient) (cd bd : ℕ → ℚ),
      survivalLoop p.viruses cd <:+ (p.update cd bd).1.viruses)
    ∧ (∀ (t : TreatedPatient) (cd bd : ℕ → ℚ) (td : ℕ → ℕ → ℚ),
      treatedSurvivalLoop t.viruses cd <:+ (t.update cd bd td).1.viruses) := by
  refine ⟨?_, ?_, ?_, ?_⟩
  · intro dens v vs bd h
    simp [reproductionLoop, h]
  · intro dens ad v vs bd td h
    simp [treatedReproductionLoop, h]
  · intro p cd bd
    exact List.suffix_append _ _
  · intro t cd bd td
    exact List.suffix_append _ _

/-- C8 witness: a particle with `maxBirthProb = 0` fails to reproduce on the
draw `1`, and the reproduction loop on the singleton survivor list equals the
loop on the empty remainder, contributing no offspring. -/
theorem C8_witness :
    reproductionLoop 0 [SimpleVirus.mk 0 0] (fun _ => 1)
      = reproductionLoop 0 [] (shift (fun _ => 1) 1) :=
  C8_theorem.1 0 ⟨0, 0⟩ [] (fun _ => 1)
    (by
      rw [SimpleVirus.reproduce, if_neg]
      norm_num)

/-- C10: one update step changes only the population: for either host the
capacity `maxPop` is unchanged, for the treated host the prescribed-drug list
is unchanged, and the surviving particles appear in the new population as the
very same unmodified values (the survivor list is a suffix of the new list;
offspring are freshly constructed particles). -/
theorem C10_theorem :
    (∀ (p : Patient) (cd bd : ℕ → ℚ),
      (p.update cd bd).1.maxPop = p.maxPop
        ∧ survivalLoop p.viruses cd <:+ (p.update cd bd).1.viruses)
    ∧ (∀ (t : TreatedPatient) (cd bd : ℕ → ℚ) (td : ℕ → ℕ → ℚ),
      (t.update cd bd td).1.maxPop = t.maxPop
        ∧ (t.update cd bd td).1.presDrugs = t.presDrugs
        ∧ treatedSurvivalLoop t.viruses cd <:+ (t.update cd bd td).1.viruses) := by
  constructor
  · intro p cd bd
    exact ⟨rfl, List.suffix_append _ _⟩
  · intro t cd bd td
    exact ⟨rfl, rfl, List.suffix_append _ _⟩
